import Mathlib

/-
Shallow embedding of the telegram-eleven-tts-bot repository (config.py,
voice.py, main.py) for verifying its natural-language specification.

Conventions of the embedding:
  * Python strings are Lean `String`s; `str.lower()` is modelled per
    character over the code points (ASCII case folding, which is all the
    classification needles use); `needle in haystack` is modelled by an
    explicit substring search.
  * HTTP responses are modelled by their status code and by the result of
    parsing their body: `none` when `response.json()` or the field access
    raises (voice.py line 135), `some d` when a `detail` value was
    extracted (a missing `detail` key yields the empty dict, voice.py
    line 95).
  * The filesystem is an association list from paths to byte lists;
    `open(path, "wb")` followed by `write` is modelled by `writeFile`.
  * Byte contents are `List Nat`.
-/

namespace TTSBot

/-! ## config.py -/

/-- config.py line 22: base endpoint for text-to-speech calls. -/
def ELEVENLABS_API_URL : String := "https://api.elevenlabs.io/v1/text-to-speech"

/-- One entry of the voice registry (config.py lines 27-63): provider id,
display name and tone description. -/
structure VoiceInfo where
  id : String
  name : String
  description : String
deriving DecidableEq

/-- config.py lines 27-63: the fixed registry `AVAILABLE_VOICES`, keyed by
voice key. Order matches the source dict. -/
def AVAILABLE_VOICES : List (String × VoiceInfo) :=
  [ ("bella", ⟨"EXAVITQu4vr4xnSDxMaL", "Bella", "Мягкий, спокойный, умиротворяющий (русский)"⟩),
    ("rachel", ⟨"21m00Tcm4TlvDq8ikWAM", "Rachel", "Профессиональный, нейтральный, четкий (русский)"⟩),
    ("domi", ⟨"AZnzlk1XvdvUeBnXmlld", "Domi", "Энергичный, молодой, динамичный (русский)"⟩),
    ("elli", ⟨"MF3mGyEYCl7XYWbV9V6O", "Elli", "Дружелюбный, теплый, приветливый (русский)"⟩),
    ("dorothy", ⟨"ThT5KcBeYPX3keUQqHPh", "Dorothy", "Зрелый, уверенный, авторитетный (русский)"⟩),
    ("charlotte", ⟨"XB0fDUnXU5powFXDhCwa", "Charlotte", "Элегантный, утонченный (русский)"⟩),
    ("alice", ⟨"Xb7hH8MSUJpSbSDYk0k2", "Alice", "Нежный, мягкий, деликатный (русский)"⟩) ]

/-- config.py line 66: `DEFAULT_VOICE_ID = AVAILABLE_VOICES["bella"]["id"]`. -/
def DEFAULT_VOICE_ID : String := ((AVAILABLE_VOICES.lookup "bella").getD ⟨"", "", ""⟩).id

/-- The set of provider voice ids present in the registry. -/
def registryVoiceIds : List String := AVAILABLE_VOICES.map (fun kv => kv.2.id)

/-- config.py line 87. -/
def MAX_TEXT_LENGTH : Nat := 5000

/-- config.py line 83: `AUDIO_DIR = Path("audio")`. -/
def AUDIO_DIR : String := "audio"

/-! ## String helpers modelling Python primitives -/

/-- Python `str.lower()`, applied code point by code point. The needles the
classifier searches for are ASCII, and `Char.toLower` folds exactly the
ASCII range. -/
def pyLower (s : String) : String := String.mk (s.toList.map Char.toLower)

/-- Substring occurrence over char lists: does `needle` occur inside the
list? The empty needle occurs everywhere, as in Python. -/
def substrAux : List Char → List Char → Bool
  | [], needle => List.isPrefixOf needle []
  | h :: t, needle => List.isPrefixOf needle (h :: t) || substrAux t needle

/-- Python `needle in haystack` on strings. -/
def pyContains (haystack needle : String) : Bool :=
  substrAux haystack.toList needle.toList

/-- One pass of Python `str.replace`: scan left to right, replacing each
non-overlapping occurrence of `needle`. The `fuel` argument only makes the
recursion structural; every step consumes at least one character, so
`fuel = length of the scanned list` never runs out. -/
def pyReplaceAux (needle repl : List Char) : Nat → List Char → List Char
  | 0, l => l
  | _ + 1, [] => []
  | fuel + 1, h :: t =>
    if needle ≠ [] ∧ List.isPrefixOf needle (h :: t) = true then
      repl ++ pyReplaceAux needle repl fuel (List.drop (needle.length - 1) t)
    else h :: pyReplaceAux needle repl fuel t

/-- Python `s.replace(needle, repl)` for a non-empty needle. -/
def pyReplace (s needle repl : String) : String :=
  String.mk (pyReplaceAux needle.toList repl.toList s.toList.length s.toList)

/-! ## voice.py: the ElevenLabsTTS client -/

/-- Mutable client state (voice.py lines 25-33): current voice id and the
request URL derived from it. -/
structure ElevenLabsTTS where
  voice_id : String
  api_url : String
deriving DecidableEq

/-- Python `voice_id or DEFAULT_VOICE_ID` (voice.py line 27): `None` and
the empty string are falsy and fall back to the default. -/
def pyOrDefault (v : Option String) : String :=
  match v with
  | none => DEFAULT_VOICE_ID
  | some s => if s = "" then DEFAULT_VOICE_ID else s

/-- voice.py lines 25-28: `__init__`. -/
def ElevenLabsTTS.init (voice_id : Option String) : ElevenLabsTTS :=
  let v := pyOrDefault voice_id
  { voice_id := v, api_url := ELEVENLABS_API_URL ++ "/" ++ v }

/-- voice.py lines 35-38: `set_voice`. -/
def ElevenLabsTTS.set_voice (t : ElevenLabsTTS) (voice_id : String) : ElevenLabsTTS :=
  { t with voice_id := voice_id, api_url := ELEVENLABS_API_URL ++ "/" ++ voice_id }

/-- The `detail` value extracted from a parsed JSON error body
(voice.py lines 94-95): either a dict, carrying the string values of
`detail.get('message', '')` and `detail.get('status', '')`, or a non-dict
value carrying its `str()` rendering. A body whose JSON has no `detail`
key gives the empty dict, i.e. `dict "" ""`. -/
inductive ErrorDetail where
  | dict (message : String) (status : String)
  | nonDict (rendered : String)
deriving DecidableEq

/-- voice.py lines 102-106: account-restriction message. -/
def accountRestrictionMessage : String :=
  "⚠️ Проблема с аккаунтом ElevenLabs:\nОбнаружена необычная активность или бесплатный тариф заблокирован.\nПроверьте ваш аккаунт на сайте elevenlabs.io"

/-- voice.py lines 108-112: authorization error (parseable body, 401). -/
def authorizationMessage : String :=
  "🔑 Ошибка авторизации:\nНеверный API ключ ElevenLabs.\nПроверьте ELEVENLABS_API_KEY в файле .env"

/-- voice.py lines 114-123: access-forbidden error (parseable body, 403). -/
def forbiddenMessage : String :=
  "🚫 Доступ запрещен (403):\nВаш API ключ не имеет доступа к этому ресурсу.\n\nВозможные причины:\n• Аккаунт заблокирован или ограничен\n• Исчерпан лимит бесплатного тарифа\n• Проблемы с регионом/IP адресом\n• Требуется платная подписка\n\nПроверьте статус аккаунта на elevenlabs.io"

/-- voice.py lines 125-129: rate-limit error (parseable body, 429). -/
def rateLimitMessage : String :=
  "⏱️ Превышен лимит запросов:\nСлишком много запросов к API.\nПодождите немного и попробуйте снова"

/-- voice.py line 131: generic message for other status codes with a
parseable dict detail, carrying the code and `detail.message`. -/
def genericMessage (status_code : Nat) (api_message : String) : String :=
  "Ошибка API (код " ++ Nat.repr status_code ++ "): " ++ api_message

/-- voice.py line 133: message when `detail` is present but not a dict. -/
def nonDictDetailMessage (rendered : String) : String :=
  "Ошибка API: " ++ rendered

/-- voice.py line 140: authorization error, unparseable body. -/
def authorizationCoarseMessage : String :=
  "🔑 Ошибка авторизации: проверьте API ключ в .env файле"

/-- voice.py lines 142-146: access-forbidden error, unparseable body. -/
def forbiddenCoarseMessage : String :=
  "🚫 Доступ запрещен (403):\nПроверьте статус аккаунта на elevenlabs.io\nВозможно, требуется платная подписка или аккаунт заблокирован"

/-- voice.py line 148: rate-limit error, unparseable body. -/
def rateLimitCoarseMessage : String :=
  "⏱️ Превышен лимит запросов. Подождите и попробуйте снова"

/-- voice.py line 150: generic message for an unparseable body. -/
def genericCoarseMessage (status_code : Nat) : String :=
  "Ошибка API (код " ++ Nat.repr status_code ++ ")"

/-- voice.py line 101: the account-restriction test on the dict detail. -/
def isAccountRestrictionPayload (api_message api_status : String) : Bool :=
  pyContains (pyLower api_status) "unusual_activity" ||
    pyContains (pyLower api_message) "free tier"

/-- voice.py lines 91-150: classification of an HTTP error response into a
user-facing message, from its status code and parsed `detail` value
(`none` when the body is not parseable JSON). -/
def classifyHTTPError (status_code : Nat) (parsed : Option ErrorDetail) : String :=
  match parsed with
  | some (ErrorDetail.dict api_message api_status) =>
    if isAccountRestrictionPayload api_message api_status then accountRestrictionMessage
    else if status_code = 401 then authorizationMessage
    else if status_code = 403 then forbiddenMessage
    else if status_code = 429 then rateLimitMessage
    else genericMessage status_code api_message
  | some (ErrorDetail.nonDict rendered) => nonDictDetailMessage rendered
  | none =>
    if status_code = 401 then authorizationCoarseMessage
    else if status_code = 403 then forbiddenCoarseMessage
    else if status_code = 429 then rateLimitCoarseMessage
    else genericCoarseMessage status_code

/-! ## voice.py: success path of generate_speech, over a model filesystem -/

/-- Byte contents of a file or response body. -/
abbrev Bytes := List Nat

/-- A filesystem as an association list from paths to contents; the most
recent write for a path comes first. -/
abbrev FileSystem := List (String × Bytes)

/-- `open(path, "wb")` + `write(content)`: the path now holds exactly
`content`. -/
def writeFile (fs : FileSystem) (path : String) (content : Bytes) : FileSystem :=
  (path, content) :: fs

/-- Reading a file back: `none` when the path does not exist. -/
def readFile (fs : FileSystem) (path : String) : Option Bytes :=
  fs.lookup path

/-- voice.py line 77: `f"voice_{timestamp}.mp3"`. -/
def successFilename (timestamp : String) : String :=
  "voice_" ++ timestamp ++ ".mp3"

/-- voice.py line 78: `AUDIO_DIR / filename`. -/
def successFilepath (timestamp : String) : String :=
  AUDIO_DIR ++ "/" ++ successFilename timestamp

/-- voice.py lines 73-85: the success (2xx) path of `generate_speech`:
write the response body to `audio/voice_<timestamp>.mp3` and return the
updated filesystem together with the returned path. -/
def generate_speech_success (fs : FileSystem) (timestamp : String) (content : Bytes) :
    FileSystem × String :=
  let filepath := successFilepath timestamp
  (writeFile fs filepath content, filepath)

/-! ## voice.py: is_valid_api_key -/

/-- Outcome of the account-info GET request (voice.py lines 178-182):
either an HTTP response with a status code, a network-level failure
(`requests.exceptions.RequestException`), or any other exception. -/
inductive RequestOutcome where
  | httpResponse (status_code : Nat)
  | networkFailure
  | unexpectedFailure
deriving DecidableEq

/-- voice.py lines 169-197: `is_valid_api_key`, total over every outcome
(the except clauses return `False` instead of raising). -/
def is_valid_api_key (outcome : RequestOutcome) : Bool :=
  match outcome with
  | RequestOutcome.httpResponse s =>
    if s = 200 then true
    else if s = 401 then false
    else false
  | RequestOutcome.networkFailure => false
  | RequestOutcome.unexpectedFailure => false

/-! ## main.py: dispatcher state and handlers -/

/-- The slice of `context.user_data` the handlers use: the stored voice id,
`none` when the key was never set. -/
structure UserData where
  voice_id : Option String
deriving DecidableEq

/-- main.py line 93: `context.user_data.get("voice_id", DEFAULT_VOICE_ID)`. -/
def get_tts_voice_id (ud : UserData) : String :=
  ud.voice_id.getD DEFAULT_VOICE_ID

/-- main.py lines 91-95: `get_tts_instance` builds a fresh client with the
user's stored voice id (or the default). -/
def get_tts_instance (ud : UserData) : ElevenLabsTTS :=
  ElevenLabsTTS.init (some (get_tts_voice_id ud))

/-- main.py line 101: the `/start` handler sets the stored voice id to the
default. -/
def start_handler (ud : UserData) : UserData :=
  { ud with voice_id := some DEFAULT_VOICE_ID }

/-- main.py line 186: reply for an unknown voice key. -/
def voiceNotFoundMessage : String := "❌ Ошибка: выбранный голос не найден."

/-- main.py lines 192-197: reply after a successful voice change. -/
def voiceChangedMessage (v : VoiceInfo) : String :=
  "✅ Голос изменен!\n\n🎤 Выбранный голос: **" ++ v.name ++ "**\n📝 Описание: " ++
    v.description ++ "\n\nТеперь все тексты будут озвучиваться этим голосом."

/-- main.py lines 178-200: `voice_callback`. Strips the `voice_` marker
from the callback data (Python `str.replace`, all occurrences), looks the
key up in the registry, and either leaves the state unchanged with a
not-found reply or stores the selected id with a success reply. -/
def voice_callback (ud : UserData) (callback_data : String) : UserData × String :=
  let voice_key := pyReplace callback_data "voice_" ""
  match AVAILABLE_VOICES.lookup voice_key with
  | none => (ud, voiceNotFoundMessage)
  | some selected_voice =>
    ({ ud with voice_id := some selected_voice.id }, voiceChangedMessage selected_voice)

/-- main.py lines 241-244: rejection reply for over-long text, carrying the
limit and the actual length. -/
def lengthRejectionMessage (n : Nat) : String :=
  "❌ Текст слишком длинный! Максимум " ++ Nat.repr MAX_TEXT_LENGTH ++
    " символов.\nВаш текст: " ++ Nat.repr n ++ " символов."

/-- What `handle_text` decides before any network activity. -/
inductive TextAction where
  | reject (reply : String)
  | synthesize (text : String)
deriving DecidableEq

/-- main.py lines 235-257: the length gate of `handle_text`. Over-long text
is rejected with a reply and the handler returns; otherwise the text goes
on to synthesis. -/
def handle_text_gate (user_text : String) : TextAction :=
  if user_text.length > MAX_TEXT_LENGTH then
    TextAction.reject (lengthRejectionMessage user_text.length)
  else TextAction.synthesize user_text

/-- A sample text strictly longer than the configured maximum. -/
def longSampleText : String := String.mk (List.replicate 5001 'a')

/-- User-data states reachable through the handlers that touch the stored
voice id: the fresh state, `/start`, and the voice-selection callback. -/
inductive ReachableUserData : UserData → Prop where
  | initial : ReachableUserData ⟨none⟩
  | start (ud : UserData) : ReachableUserData ud → ReachableUserData (start_handler ud)
  | callback (ud : UserData) (data : String) :
      ReachableUserData ud → ReachableUserData (voice_callback ud data).1

/-! ## Helper lemmas -/

/-- Two strings whose first characters differ are different. -/
theorem ne_of_head_data (a b : String) (h : a.data.head? ≠ b.data.head?) : a ≠ b :=
  fun hab => h (congrArg (fun t : String => t.data.head?) hab)

/-- The generic coarse message never coincides with the account-restriction
message, whatever the status code: their first characters differ. -/
theorem genericCoarse_ne_accountRestriction (status_code : Nat) :
    genericCoarseMessage status_code ≠ accountRestrictionMessage := by
  apply ne_of_head_data
  simp only [genericCoarseMessage, accountRestrictionMessage, String.data_append]
  simp

/-- The non-dict-detail message never coincides with the
account-restriction message, whatever the rendered detail. -/
theorem nonDict_ne_accountRestriction (rendered : String) :
    nonDictDetailMessage rendered ≠ accountRestrictionMessage := by
  apply ne_of_head_data
  simp only [nonDictDetailMessage, accountRestrictionMessage, String.data_append]
  simp

/-- The non-dict-detail message never coincides with the authorization
message. -/
theorem nonDict_ne_authorization (rendered : String) :
    nonDictDetailMessage rendered ≠ authorizationMessage := by
  apply ne_of_head_data
  simp only [nonDictDetailMessage, authorizationMessage, String.data_append]
  simp

set_option maxRecDepth 8192 in
/-- The non-dict-detail message never coincides with the access-forbidden
message. -/
theorem nonDict_ne_forbidden (rendered : String) :
    nonDictDetailMessage rendered ≠ forbiddenMessage := by
  apply ne_of_head_data
  simp only [nonDictDetailMessage, forbiddenMessage, String.data_append]
  simp

/-- The non-dict-detail message never coincides with the rate-limit
message. -/
theorem nonDict_ne_rateLimit (rendered : String) :
    nonDictDetailMessage rendered ≠ rateLimitMessage := by
  apply ne_of_head_data
  simp only [nonDictDetailMessage, rateLimitMessage, String.data_append]
  simp

/-- A successful lookup in the voice registry yields an entry whose id is
among the registry's voice ids. -/
theorem lookup_id_mem_registry {l : List (String × VoiceInfo)} {key : String} {v : VoiceInfo}
    (h : l.lookup key = some v) : v.id ∈ l.map (fun kv => kv.2.id) := by
  induction l with
  | nil => simp [List.lookup] at h
  | cons hd tl ih =>
    obtain ⟨hk, hv⟩ := hd
    simp only [List.lookup] at h
    cases hbeq : (key == hk) with
    | true =>
      rw [hbeq] at h
      simp only [Option.some.injEq] at h
      subst h
      exact List.mem_cons_self _ _
    | false =>
      rw [hbeq] at h
      exact List.mem_cons_of_mem _ (ih h)

/-! ## Claim theorems -/

/-- C1: for an error response with a parseable JSON body whose `detail` is
an object, if `detail.status` contains "unusual_activity" or
`detail.message` contains "free tier" (case-insensitively), then the
classification yields the account-restriction message regardless of the
HTTP status code, and that message is distinct from every status-code
bucket's message, so the account-restriction check takes precedence over
the 401/403/429 buckets. -/
theorem C1_account_restriction_precedence (status_code : Nat) (api_message api_status : String)
    (h : pyContains (pyLower api_status) "unusual_activity" = true ∨
      pyContains (pyLower api_message) "free tier" = true) :
    classifyHTTPError status_code (some (ErrorDetail.dict api_message api_status)) =
      accountRestrictionMessage ∧
    accountRestrictionMessage ≠ authorizationMessage ∧
    accountRestrictionMessage ≠ forbiddenMessage ∧
    accountRestrictionMessage ≠ rateLimitMessage := by
  have hb : isAccountRestrictionPayload api_message api_status = true := by
    unfold isAccountRestrictionPayload
    rcases h with h | h <;> simp [h]
  refine ⟨?_, by decide, by decide, by decide⟩
  simp [classifyHTTPError, hb]

/-- C1 witness: a 500 response carrying `detail.status = "unusual_activity"`
is classified as account restriction. -/
theorem C1_account_restriction_precedence_witness :
    (pyContains (pyLower "unusual_activity") "unusual_activity" = true ∨
      pyContains (pyLower "") "free tier" = true) ∧
    classifyHTTPError 500 (some (ErrorDetail.dict "" "unusual_activity")) =
      accountRestrictionMessage :=
  ⟨Or.inl (by decide),
    (C1_account_restriction_precedence 500 "" "unusual_activity" (Or.inl (by decide))).1⟩

/-- C2: for an error response with a parseable JSON body whose object
`detail` does not match the account-restriction predicate, status 401 maps
to the authorization message, 403 to the access-forbidden message, 429 to
the rate-limit message, and every other status to the generic message
carrying the status code and `detail.message`. -/
theorem C2_status_code_buckets (status_code : Nat) (api_message api_status : String)
    (h : isAccountRestrictionPayload api_message api_status = false) :
    (status_code = 401 →
      classifyHTTPError status_code (some (ErrorDetail.dict api_message api_status)) =
        authorizationMessage) ∧
    (status_code = 403 →
      classifyHTTPError status_code (some (ErrorDetail.dict api_message api_status)) =
        forbiddenMessage) ∧
    (status_code = 429 →
      classifyHTTPError status_code (some (ErrorDetail.dict api_message api_status)) =
        rateLimitMessage) ∧
    (status_code ≠ 401 → status_code ≠ 403 → status_code ≠ 429 →
      classifyHTTPError status_code (some (ErrorDetail.dict api_message api_status)) =
        genericMessage status_code api_message) := by
  refine ⟨?_, ?_, ?_, ?_⟩
  · intro h401; subst h401; simp [classifyHTTPError, h]
  · intro h403; subst h403; simp [classifyHTTPError, h]
  · intro h429; subst h429; simp [classifyHTTPError, h]
  · intro h1 h2 h3; simp [classifyHTTPError, h, h1, h2, h3]

/-- C2 witness: a 404 response with a non-restriction payload is classified
as the generic message carrying the code and the payload message. -/
theorem C2_status_code_buckets_witness :
    isAccountRestrictionPayload "Voice not found" "voice_not_found" = false ∧
    classifyHTTPError 404 (some (ErrorDetail.dict "Voice not found" "voice_not_found")) =
      genericMessage 404 "Voice not found" :=
  ⟨by decide,
    (C2_status_code_buckets 404 "Voice not found" "voice_not_found" (by decide)).2.2.2
      (by decide) (by decide) (by decide)⟩

/-- C10: for an error response with a parseable JSON body whose `detail` is
present but not an object, the classification yields the generic
"API error: detail" message regardless of the HTTP status code, and that
message differs from the account-restriction and 401/403/429 bucket
messages, so all those checks are bypassed. -/
theorem C10_non_dict_detail (status_code : Nat) (rendered : String) :
    classifyHTTPError status_code (some (ErrorDetail.nonDict rendered)) =
      nonDictDetailMessage rendered ∧
    nonDictDetailMessage rendered ≠ accountRestrictionMessage ∧
    nonDictDetailMessage rendered ≠ authorizationMessage ∧
    nonDictDetailMessage rendered ≠ forbiddenMessage ∧
    nonDictDetailMessage rendered ≠ rateLimitMessage :=
  ⟨rfl, nonDict_ne_accountRestriction rendered, nonDict_ne_authorization rendered,
    nonDict_ne_forbidden rendered, nonDict_ne_rateLimit rendered⟩

/-- C3 counterexample: the coarse classification used for an unparseable
body never produces the account-restriction message, for any status code,
so it does not offer the account-restriction bucket. -/
theorem C3_coarse_counterexample :
    ¬ ∃ status_code : Nat, classifyHTTPError status_code none = accountRestrictionMessage := by
  rintro ⟨c, hc⟩
  simp only [classifyHTTPError] at hc
  split_ifs at hc
  · exact absurd hc (by decide)
  · exact absurd hc (by decide)
  · exact absurd hc (by decide)
  · exact genericCoarse_ne_accountRestriction c hc

/-- C3 (amended): for an unparseable error body, the classification uses
only the status code; 401, 403 and 429 map to their fixed bucket messages,
which differ from the generic fallback at those codes, every other status
maps to the generic message carrying the code, and the account-restriction
bucket is never produced. -/
theorem C3_coarse_classification (status_code : Nat) :
    classifyHTTPError status_code none =
      (if status_code = 401 then authorizationCoarseMessage
       else if status_code = 403 then forbiddenCoarseMessage
       else if status_code = 429 then rateLimitCoarseMessage
       else genericCoarseMessage status_code) ∧
    authorizationCoarseMessage ≠ genericCoarseMessage 401 ∧
    forbiddenCoarseMessage ≠ genericCoarseMessage 403 ∧
    rateLimitCoarseMessage ≠ genericCoarseMessage 429 ∧
    classifyHTTPError status_code none ≠ accountRestrictionMessage := by
  refine ⟨rfl, by decide, by decide, by decide, ?_⟩
  simp only [classifyHTTPError]
  split_ifs
  · decide
  · decide
  · decide
  · exact genericCoarse_ne_accountRestriction status_code

/-- C5: the liveness check returns true exactly for an HTTP 200 response;
every other status, a network failure and an unexpected exception all give
false, and the function is total (never raises). -/
theorem C5_is_valid_api_key (outcome : RequestOutcome) :
    is_valid_api_key outcome = true ↔ outcome = RequestOutcome.httpResponse 200 := by
  cases outcome with
  | httpResponse s =>
    by_cases h : s = 200
    · subst h; simp [is_valid_api_key]
    · simp [is_valid_api_key, h]
  | networkFailure => simp [is_valid_api_key]
  | unexpectedFailure => simp [is_valid_api_key]

/-- C9: after construction and after every `set_voice`, the client's
request URL is the fixed endpoint base, a slash, and the current voice id,
and `set_voice` stores exactly the id it was given. -/
theorem C9_api_url_tracks_voice (v : Option String) (t : ElevenLabsTTS) (voice_id : String) :
    (ElevenLabsTTS.init v).api_url =
      ELEVENLABS_API_URL ++ "/" ++ (ElevenLabsTTS.init v).voice_id ∧
    (t.set_voice voice_id).api_url =
      ELEVENLABS_API_URL ++ "/" ++ (t.set_voice voice_id).voice_id ∧
    (t.set_voice voice_id).voice_id = voice_id :=
  ⟨rfl, rfl, rfl⟩

/-- C6: the text handler rejects every message strictly longer than the
configured maximum with the rejection reply and never reaches synthesis
for it. -/
theorem C6_length_gate (user_text : String) (h : user_text.length > MAX_TEXT_LENGTH) :
    handle_text_gate user_text = TextAction.reject (lengthRejectionMessage user_text.length) ∧
    ∀ t, handle_text_gate user_text ≠ TextAction.synthesize t := by
  unfold handle_text_gate
  rw [if_pos h]
  exact ⟨rfl, fun t hc => TextAction.noConfusion hc⟩

/-- C6 witness: a 5001-character text is rejected by the length gate. -/
theorem C6_length_gate_witness :
    longSampleText.length > MAX_TEXT_LENGTH ∧
    handle_text_gate longSampleText =
      TextAction.reject (lengthRejectionMessage longSampleText.length) := by
  have hlen : longSampleText.length = 5001 := by
    show (List.replicate 5001 'a').length = 5001
    exact List.length_replicate 5001 'a'
  have h : longSampleText.length > MAX_TEXT_LENGTH := by
    rw [hlen]; norm_num [MAX_TEXT_LENGTH]
  exact ⟨h, (C6_length_gate longSampleText h).1⟩

/-- C7: a voice-selection callback whose key is not in the registry leaves
the stored voice id unchanged and replies with the not-found message. -/
theorem C7_unknown_voice_key (ud : UserData) (callback_data : String)
    (h : AVAILABLE_VOICES.lookup (pyReplace callback_data "voice_" "") = none) :
    voice_callback ud callback_data = (ud, voiceNotFoundMessage) := by
  simp [voice_callback, h]

/-- C7 witness: the key "ghost" is not in the registry, and the callback
for it leaves the default selection untouched. -/
theorem C7_unknown_voice_key_witness :
    AVAILABLE_VOICES.lookup (pyReplace "voice_ghost" "voice_" "") = none ∧
    voice_callback ⟨some DEFAULT_VOICE_ID⟩ "voice_ghost" =
      (⟨some DEFAULT_VOICE_ID⟩, voiceNotFoundMessage) :=
  ⟨by decide, C7_unknown_voice_key ⟨some DEFAULT_VOICE_ID⟩ "voice_ghost" (by decide)⟩

/-- C8 counterexample: when the session state holds a voice id that is not
in the registry, `get_tts_instance` uses it as-is instead of falling back
to the default. -/
theorem C8_no_fallback_counterexample :
    get_tts_voice_id ⟨some "not-a-registry-id"⟩ = "not-a-registry-id" ∧
    "not-a-registry-id" ∉ registryVoiceIds ∧
    get_tts_voice_id ⟨some "not-a-registry-id"⟩ ≠ DEFAULT_VOICE_ID :=
  ⟨rfl, by decide, by decide⟩

/-- C8 (amended): an absent voice id falls back to the default, and for
every session state reachable through the handlers the voice id used for
synthesis is in the registry — the code never stores a non-registry id,
rather than validating at use. -/
theorem C8_registry_invariant (ud : UserData) (h : ReachableUserData ud) :
    get_tts_voice_id ud ∈ registryVoiceIds ∧
    get_tts_voice_id ⟨none⟩ = DEFAULT_VOICE_ID := by
  refine ⟨?_, rfl⟩
  induction h with
  | initial => decide
  | start ud' h' ih => exact (by decide : DEFAULT_VOICE_ID ∈ registryVoiceIds)
  | callback ud' data h' ih =>
    unfold voice_callback
    cases hl : AVAILABLE_VOICES.lookup (pyReplace data "voice_" "") with
    | none => simpa [hl] using ih
    | some v =>
      simp only [hl]
      exact lookup_id_mem_registry hl

/-- C8 witness: the state produced by the `/start` handler uses a registry
voice id. -/
theorem C8_registry_invariant_witness :
    get_tts_voice_id (start_handler ⟨none⟩) ∈ registryVoiceIds :=
  (C8_registry_invariant (start_handler ⟨none⟩)
    (ReachableUserData.start ⟨none⟩ ReachableUserData.initial)).1

/-- C4 counterexample: a successful response whose body is empty produces a
file that exists but is empty, so the returned path is not non-empty. -/
theorem C4_empty_body_counterexample :
    readFile (generate_speech_success [] "20260101_000000" []).1
        (generate_speech_success [] "20260101_000000" []).2 = some [] ∧
    ([] : Bytes).length = 0 :=
  ⟨by decide, rfl⟩

/-- C4 (amended): on a 2xx response the body is written to
`audio/voice_<timestamp>.mp3` and that path is returned; reading the path
back yields exactly the body, and the file is non-empty whenever the body
is. -/
theorem C4_success_roundtrip (fs : FileSystem) (timestamp : String) (content : Bytes)
    (h : content ≠ []) :
    readFile (generate_speech_success fs timestamp content).1
        (generate_speech_success fs timestamp content).2 = some content ∧
    (generate_speech_success fs timestamp content).2 =
      AUDIO_DIR ++ "/" ++ ("voice_" ++ timestamp ++ ".mp3") ∧
    0 < content.length := by
  refine ⟨?_, rfl, List.length_pos.mpr h⟩
  simp [generate_speech_success, readFile, writeFile, List.lookup]

/-- C4 witness: a three-byte body round-trips through the written file. -/
theorem C4_success_roundtrip_witness :
    ([1, 2, 3] : Bytes) ≠ [] ∧
    readFile (generate_speech_success [] "20260101_000000" [1, 2, 3]).1
        (generate_speech_success [] "20260101_000000" [1, 2, 3]).2 = some [1, 2, 3] :=
  ⟨by decide, (C4_success_roundtrip [] "20260101_000000" [1, 2, 3] (by decide)).1⟩

end TTSBot
